import Mathlib

/-!
Shallow embedding of the analytics-dashboard script `src/ok.py`.

The script has four pieces of non-UI logic, each embedded below from the
source:
* password hashing (`hash_password`, SHA-256 hex digest of the UTF-8 bytes);
* the credential store backed by the sqlite `users` table with a UNIQUE
  username column (`user_exists`, `add_user`, `authenticate_user`, and the
  session effect of the login page);
* the vaccination data store (`setup_vaccination_database`,
  `is_data_present`, `load_data_into_db`, the `SELECT *` read) where the
  pandas `to_sql(..., if_exists="replace")` call replaces the whole table,
  schema included;
* the dataframe filtering of the dashboard (`vaccine_options`,
  `filtered_df`).

Machine integers are modelled as `Nat` reduced `% 2^32` where the SHA-256
compression function needs 32-bit wraparound; sqlite rows are lists of
records; the dataframe read back from sqlite keeps the nullability of the
TEXT/BOOLEAN/INTEGER columns, so every data column is an `Option`.
-/

namespace Ok

/-! ### SHA-256 (the `hashlib.sha256(...).hexdigest()` call in `hash_password`) -/

/-- Modulus for 32-bit words. -/
def w32 : Nat := 4294967296

/-- Right rotation of a 32-bit word. -/
def rotr32 (n x : Nat) : Nat := ((x >>> n) ||| (x <<< (32 - n))) % w32

/-- Bitwise complement within 32 bits. -/
def compl32 (x : Nat) : Nat := x ^^^ 4294967295

/-- SHA-256 lowercase sigma 0 (message schedule mixing). -/
def smallSig0 (x : Nat) : Nat := (rotr32 7 x) ^^^ (rotr32 18 x) ^^^ (x >>> 3)

/-- SHA-256 lowercase sigma 1 (message schedule mixing). -/
def smallSig1 (x : Nat) : Nat := (rotr32 17 x) ^^^ (rotr32 19 x) ^^^ (x >>> 10)

/-- SHA-256 uppercase sigma 0 (compression mixing). -/
def bigSig0 (x : Nat) : Nat := (rotr32 2 x) ^^^ (rotr32 13 x) ^^^ (rotr32 22 x)

/-- SHA-256 uppercase sigma 1 (compression mixing). -/
def bigSig1 (x : Nat) : Nat := (rotr32 6 x) ^^^ (rotr32 11 x) ^^^ (rotr32 25 x)

/-- SHA-256 choice function. -/
def chFn (x y z : Nat) : Nat := (x &&& y) ^^^ ((compl32 x) &&& z)

/-- SHA-256 majority function. -/
def majFn (x y z : Nat) : Nat := (x &&& y) ^^^ (x &&& z) ^^^ (y &&& z)

/-- The 64 SHA-256 round constants of FIPS 180-4 (fractional parts of the
cube roots of the first 64 primes), written in decimal. -/
def shaK : List Nat :=
  [1116352408, 1899447441, 3049323471, 3921009573,
   961987163, 1508970993, 2453635748, 2870763221,
   3624381080, 310598401, 607225278, 1426881987,
   1925078388, 2162078206, 2614888103, 3248222580,
   3835390401, 4022224774, 264347078, 604807628,
   770255983, 1249150122, 1555081692, 1996064986,
   2554220882, 2821834349, 2952996808, 3210313671,
   3336571891, 3584528711, 113926993, 338241895,
   666307205, 773529912, 1294757372, 1396182291,
   1695183700, 1986661051, 2177026350, 2456956037,
   2730485921, 2820302411, 3259730800, 3345764771,
   3516065817, 3600352804, 4094571909, 275423344,
   430227734, 506948616, 659060556, 883997877,
   958139571, 1322822218, 1537002063, 1747873779,
   1955562222, 2024104815, 2227730452, 2361852424,
   2428436474, 2756734187, 3204031479, 3329325298]

/-- Running state of the SHA-256 compression function: eight 32-bit words. -/
structure SHAState where
  a : Nat
  b : Nat
  c : Nat
  d : Nat
  e : Nat
  f : Nat
  g : Nat
  hh : Nat
  deriving DecidableEq, Repr

/-- Initial SHA-256 hash value (fractional parts of the square roots of the
first 8 primes), written in decimal. -/
def shaInit : SHAState :=
  ⟨1779033703, 3144134277, 1013904242, 2773480762,
   1359893119, 2600822924, 528734635, 1541459225⟩

/-- One round of the SHA-256 compression function, on round constant `k` and
message-schedule word `w`. -/
def shaRound (s : SHAState) (k w : Nat) : SHAState :=
  let t1 := (s.hh + bigSig1 s.e + chFn s.e s.f s.g + k + w) % w32
  let t2 := (bigSig0 s.a + majFn s.a s.b s.c) % w32
  ⟨(t1 + t2) % w32, s.a, s.b, s.c, (s.d + t1) % w32, s.e, s.f, s.g⟩

/-- Extend a 16-word message block to the 64-word message schedule. -/
def shaSchedule (block : List Nat) : List Nat :=
  (List.range 48).foldl
    (fun w _ =>
      let i := w.length
      w ++ [(smallSig1 (w.getD (i - 2) 0) + w.getD (i - 7) 0 +
             smallSig0 (w.getD (i - 15) 0) + w.getD (i - 16) 0) % w32])
    block

/-- Process one 512-bit block (16 words), updating the running hash. -/
def shaBlock (s0 : SHAState) (block : List Nat) : SHAState :=
  let s := ((shaSchedule block).zip shaK).foldl (fun s p => shaRound s p.2 p.1) s0
  ⟨(s0.a + s.a) % w32, (s0.b + s.b) % w32, (s0.c + s.c) % w32, (s0.d + s.d) % w32,
   (s0.e + s.e) % w32, (s0.f + s.f) % w32, (s0.g + s.g) % w32, (s0.hh + s.hh) % w32⟩

/-- Big-endian bytes of a natural number, `n` bytes wide. -/
def beBytes (width n : Nat) : List Nat :=
  (List.range width).map (fun i => (n >>> ((width - 1 - i) * 8)) % 256)

/-- SHA-256 padding: append `0x80`, zero bytes up to 56 mod 64, then the
64-bit big-endian bit length. -/
def shaPad (msg : List Nat) : List Nat :=
  let l := msg.length
  let z := (120 - ((l + 1) % 64)) % 64
  msg ++ [0x80] ++ List.replicate z 0 ++ beBytes 8 (l * 8)

/-- Group a list of bytes into big-endian 32-bit words. -/
def toWords : List Nat → List Nat
  | b0 :: b1 :: b2 :: b3 :: rest => (((b0 * 256 + b1) * 256 + b2) * 256 + b3) :: toWords rest
  | _ => []

/-- Split a word list into 16-word blocks, with a structural fuel bound so
the definition reduces in the kernel. -/
def blocks16Aux : Nat → List Nat → List (List Nat)
  | 0, _ => []
  | _, [] => []
  | fuel + 1, x :: xs => (x :: xs).take 16 :: blocks16Aux fuel ((x :: xs).drop 16)

/-- Split a word list into 16-word blocks. -/
def blocks16 (l : List Nat) : List (List Nat) :=
  blocks16Aux l.length l

/-- SHA-256 of a byte list, as the eight-word final state. -/
def sha256 (msg : List Nat) : SHAState :=
  (blocks16 (toWords (shaPad msg))).foldl shaBlock shaInit

/-- Lowercase hex character for a value below 16. -/
def hexChar (d : Nat) : Char :=
  if d < 10 then Char.ofNat (48 + d) else Char.ofNat (87 + d)

/-- Lowercase 8-character hex rendering of a 32-bit word. -/
def hex8 (n : Nat) : List Char :=
  (List.range 8).map (fun i => hexChar ((n >>> ((7 - i) * 4)) % 16))

/-- Hex digest of a final SHA-256 state, as `hashlib`'s `hexdigest()` renders
it: 64 lowercase hex characters. -/
def hexDigest (s : SHAState) : String :=
  String.mk (hex8 s.a ++ hex8 s.b ++ hex8 s.c ++ hex8 s.d ++
             hex8 s.e ++ hex8 s.f ++ hex8 s.g ++ hex8 s.hh)

/-- UTF-8 encoding of a single code point, as Python's `str.encode()`
produces it. -/
def utf8EncodeChar (c : Nat) : List Nat :=
  if c < 0x80 then [c]
  else if c < 0x800 then [0xC0 ||| (c >>> 6), 0x80 ||| (c &&& 0x3F)]
  else if c < 0x10000 then
    [0xE0 ||| (c >>> 12), 0x80 ||| ((c >>> 6) &&& 0x3F), 0x80 ||| (c &&& 0x3F)]
  else
    [0xF0 ||| (c >>> 18), 0x80 ||| ((c >>> 12) &&& 0x3F),
     0x80 ||| ((c >>> 6) &&& 0x3F), 0x80 ||| (c &&& 0x3F)]

/-- UTF-8 bytes of a string (`password.encode()` in the source). -/
def strBytes (s : String) : List Nat :=
  (s.data.map (fun c => utf8EncodeChar c.toNat)).flatten

/-- Embeds `hash_password` (src/ok.py:78-79):
`hashlib.sha256(password.encode()).hexdigest()`. -/
def hash_password (password : String) : String :=
  hexDigest (sha256 (strBytes password))

/-! ### Credential store (the sqlite `users` table of `users.db`) -/

/-- Row of the `users` table (src/ok.py:25-29): auto-increment `id`, UNIQUE
`username`, and `password`, which `add_user` fills with the hash. -/
structure User where
  id : Nat
  username : String
  password : String
  deriving DecidableEq, Repr

/-- The `users` table plus the next value of its AUTOINCREMENT counter
(sqlite starts it at 1). -/
structure UserDB where
  users : List User
  nextId : Nat
  deriving DecidableEq, Repr

/-- Embeds `setup_user_database` (src/ok.py:22-31): CREATE TABLE IF NOT
EXISTS leaves an existing table alone and otherwise creates an empty one. -/
def setup_user_database (db : Option UserDB) : UserDB :=
  db.getD ⟨[], 1⟩

/-- Embeds `user_exists` (src/ok.py:82-88): `SELECT * FROM users WHERE
username = ?` followed by `fetchone()` returns the first matching row or
nothing. -/
def user_exists (db : UserDB) (username : String) : Option User :=
  db.users.find? (fun usr => usr.username == username)

/-- Embeds `add_user` (src/ok.py:91-100): INSERT of
`(username, hash_password(password))`. The UNIQUE constraint on `username`
raises `IntegrityError` exactly when a row with that username already
exists; the except branch returns `False` and the table is unchanged
(nothing was committed). On success the row gets the next auto-increment
id and the function returns `True`. -/
def add_user (db : UserDB) (username password : String) : UserDB × Bool :=
  if db.users.any (fun usr => usr.username == username) then
    (db, false)
  else
    ({ users := db.users ++ [⟨db.nextId, username, hash_password password⟩],
       nextId := db.nextId + 1 }, true)

/-- Embeds `authenticate_user` (src/ok.py:103-111): fetch the `password`
column of the first row with the given username; return `True` exactly when
a row was found and its stored value equals `hash_password(password)`. -/
def authenticate_user (db : UserDB) (username password : String) : Bool :=
  match db.users.find? (fun usr => usr.username == username) with
  | some usr => usr.password == hash_password password
  | none => false

/-- The per-user UI state kept in `st.session_state` (src/ok.py:157-160):
the logged-in flag, the signup-page flag, and the logged-in username. -/
structure SessionState where
  authenticated : Bool
  signup : Bool
  username : Option String
  deriving DecidableEq, Repr

/-- Embeds the Login-button handler of `login_page` (src/ok.py:119-125):
on successful authentication the session is marked authenticated and
carries the username; otherwise the state is unchanged and the error
banner (the returned flag) is shown. -/
def login_click (db : UserDB) (st : SessionState) (username password : String) :
    SessionState × Bool :=
  if authenticate_user db username password then
    ({ st with authenticated := true, username := some username }, false)
  else
    (st, true)

/-! ### Vaccination data store (the sqlite `vaccination_data` table) -/

/-- Row of the `vaccination_data` table (src/ok.py:37-47). The columns are
nullable TEXT/BOOLEAN/INTEGER, and the dataframe read back by `read_sql`
keeps the nulls, so every field is an `Option`. -/
structure VaccRow where
  STATE : Option String
  CITY : Option String
  AGE_GROUP : Option String
  GENDER : Option String
  ETHNICITY : Option String
  VACCINATED : Option Bool
  Year : Option Int
  DESCRIPTION : Option String
  deriving DecidableEq, Repr

/-- Column list of the `vaccination_data` table as `setup_vaccination_database`
declares it (src/ok.py:37-47), auto-increment `id` first. -/
def setupVaccinationColumns : List String :=
  ["id", "STATE", "CITY", "AGE_GROUP", "GENDER", "ETHNICITY", "VACCINATED", "Year", "DESCRIPTION"]

/-- Column list of the source spreadsheet at `DATASET_PATH` (no `id` column;
`to_sql` is called with `index=False`). -/
def datasetColumns : List String :=
  ["STATE", "CITY", "AGE_GROUP", "GENDER", "ETHNICITY", "VACCINATED", "Year", "DESCRIPTION"]

/-- The `vaccination_data` table: its current schema (column list) and rows.
The schema is part of the state because `to_sql(..., if_exists="replace")`
rewrites it. -/
structure VaccTable where
  columns : List String
  rows : List VaccRow
  deriving DecidableEq, Repr

/-- Embeds `setup_vaccination_database` (src/ok.py:34-49): CREATE TABLE IF
NOT EXISTS leaves an existing table alone and otherwise creates an empty
table with the declared columns. -/
def setup_vaccination_database (db : Option VaccTable) : VaccTable :=
  db.getD ⟨setupVaccinationColumns, []⟩

/-- Embeds `is_data_present` (src/ok.py:52-58): `SELECT COUNT(*)` compared
with zero. -/
def is_data_present (t : VaccTable) : Bool :=
  decide (0 < t.rows.length)

/-- The two console messages `load_data_into_db` can print. -/
inductive LoadMsg where
  | success
  | sourceNotFound
  deriving DecidableEq, Repr

/-- Embeds `load_data_into_db` (src/ok.py:61-70). The `src` argument models
the spreadsheet at `DATASET_PATH`: `none` when `os.path.exists` is false,
otherwise the parsed rows. When the table already has rows nothing happens;
when it is empty and the file exists, `df.to_sql("vaccination_data", conn,
if_exists="replace", index=False)` drops the table and recreates it from the
dataframe itself, so the stored schema becomes the spreadsheet's columns;
when the file is missing the table is untouched and the error message is
printed. The printed message is returned alongside the new state. -/
def load_data_into_db (t : VaccTable) (src : Option (List VaccRow)) :
    VaccTable × Option LoadMsg :=
  if is_data_present t then (t, none)
  else
    match src with
    | some rows => (⟨datasetColumns, rows⟩, some .success)
    | none => (t, some .sourceNotFound)

/-- Embeds the full read `SELECT * FROM vaccination_data` (src/ok.py:179). -/
def all_records (t : VaccTable) : List VaccRow :=
  t.rows

/-! ### Dashboard filtering (src/ok.py:186-199) -/

/-- Pandas `unique()`: first occurrence of each value, in encounter order. -/
def uniqueList (l : List String) : List String :=
  l.foldl (fun acc d => if acc.contains d then acc else acc ++ [d]) []

/-- Embeds `vaccine_options = df["DESCRIPTION"].dropna().unique()`
(src/ok.py:191): the distinct non-null description values. -/
def vaccine_options (df : List VaccRow) : List String :=
  uniqueList (df.filterMap (fun r => r.DESCRIPTION))

/-- Embeds `filtered_df` (src/ok.py:195):
`df[(df["STATE"] == state) & (df["CITY"] == city) &
(df["DESCRIPTION"].isin(selected_vaccines))]`. A null cell compares unequal
to every string and `isin` is false on it, matching pandas. -/
def filtered_df (df : List VaccRow) (state city : String) (selected : List String) :
    List VaccRow :=
  df.filter (fun r =>
    r.STATE == some state && r.CITY == some city &&
    (selected.map some).contains r.DESCRIPTION)

/-! ### Forecast engine -/

/-- Failure modes of the forecast engine (spec section 7). -/
inductive ForecastError where
  | insufficientData
  | nonConvergence
  deriving DecidableEq, Repr

/-- Modelled from the spec: the trend-analysis section of src/ok.py is
truncated (lines 201-203 hold only a placeholder), so the ARIMA call that
would implement `fit_and_forecast` is missing from the source. Following
spec sections 4.5 and 8: the fit fails with `InsufficientData` when the
series has fewer points than the ARIMA(p,d,q) order requires — `p+d+q+1` as
a practical minimum, and never fewer than two points, since the spec's
concrete scenario makes every one-point series fail; otherwise it returns
`horizon` predicted values (the spec fixes their count but not their
values, so the model extends the last observed value). -/
def fit_and_forecast (series : List (Int × Int)) (horizon : Nat) (p d q : Nat) :
    Except ForecastError (List Int) :=
  if series.length < max (p + d + q + 1) 2 then
    .error .insufficientData
  else
    .ok (List.replicate horizon ((series.getLast?.map Prod.snd).getD 0))

end Ok

namespace Ok

/-! ### Helper lemmas -/

/-- Lemma: membership in the `uniqueList` fold. -/
theorem mem_uniqueList_foldl (l acc : List String) (x : String) :
    x ∈ l.foldl (fun acc d => if acc.contains d then acc else acc ++ [d]) acc ↔
      x ∈ acc ∨ x ∈ l := by
  induction l generalizing acc with
  | nil => simp
  | cons a l ih =>
    simp only [List.foldl_cons]
    by_cases h : acc.contains a
    · have ha : a ∈ acc := by simpa using h
      rw [if_pos h, ih]
      simp only [List.mem_cons]
      constructor
      · rintro (hx | hx)
        · exact Or.inl hx
        · exact Or.inr (Or.inr hx)
      · rintro (hx | hx | hx)
        · exact Or.inl hx
        · exact Or.inl (hx ▸ ha)
        · exact Or.inr hx
    · rw [if_neg h, ih]
      simp only [List.mem_append, List.mem_cons, List.mem_singleton]
      tauto

/-- Lemma: `uniqueList` keeps exactly the members of its input. -/
theorem mem_uniqueList (l : List String) (x : String) :
    x ∈ uniqueList l ↔ x ∈ l := by
  rw [uniqueList, mem_uniqueList_foldl]
  simp

/-- Lemma: `find?` skips a prefix on which the predicate is everywhere false. -/
theorem find_append_of_forall_false {α : Type} (p : α → Bool) (l₁ l₂ : List α)
    (h : ∀ x ∈ l₁, p x = false) : (l₁ ++ l₂).find? p = l₂.find? p := by
  induction l₁ with
  | nil => rfl
  | cons a l ih =>
    have ha : p a = false := h a (List.mem_cons_self a l)
    simp only [List.cons_append, List.find?_cons, ha]
    exact ih (fun x hx => h x (List.mem_cons_of_mem a hx))

/-! ### C1, C4, C10: authentication claims -/

/-- Claim C1: for every username not already present in the credential store
and every password, `add_user` with that pair succeeds, `authenticate_user`
with the same pair then returns true, and the Login-button handler yields an
authenticated session carrying that username. -/
theorem register_then_login_succeeds (db : UserDB) (st : SessionState)
    (u p : String)
    (hfresh : db.users.any (fun usr => usr.username == u) = false) :
    (add_user db u p).2 = true ∧
    authenticate_user (add_user db u p).1 u p = true ∧
    (login_click (add_user db u p).1 st u p).1.authenticated = true ∧
    (login_click (add_user db u p).1 st u p).1.username = some u := by
  have hall : ∀ usr ∈ db.users, (usr.username == u) = false := by
    intro usr husr
    have := List.any_eq_false.mp hfresh usr husr
    simpa using this
  have hadd : add_user db u p =
      ({ users := db.users ++ [⟨db.nextId, u, hash_password p⟩],
         nextId := db.nextId + 1 }, true) := by
    simp [add_user, hfresh]
  have hauth : authenticate_user (add_user db u p).1 u p = true := by
    rw [hadd]
    simp only [authenticate_user]
    rw [find_append_of_forall_false _ _ _ hall]
    simp [List.find?_cons]
  refine ⟨by rw [hadd], hauth, ?_, ?_⟩ <;> simp [login_click, hauth]

/-- Witness for C1 at a concrete store, username and password. -/
theorem register_then_login_succeeds_witness :
    (([] : List User).any (fun usr => usr.username == "alice") = false) ∧
    ((add_user ⟨[], 1⟩ "alice" "hunter2").2 = true ∧
     authenticate_user (add_user ⟨[], 1⟩ "alice" "hunter2").1 "alice" "hunter2" = true ∧
     (login_click (add_user ⟨[], 1⟩ "alice" "hunter2").1 ⟨false, false, none⟩ "alice" "hunter2").1.authenticated = true ∧
     (login_click (add_user ⟨[], 1⟩ "alice" "hunter2").1 ⟨false, false, none⟩ "alice" "hunter2").1.username = some "alice") :=
  ⟨by decide,
   register_then_login_succeeds ⟨[], 1⟩ ⟨false, false, none⟩ "alice" "hunter2" (by decide)⟩

/-- Claim C4: after a successful `add_user` for a username, a second
`add_user` with the same username and any password fails (returns the
`False` of the duplicate-username branch) and leaves the credential store
exactly as it was. -/
theorem register_duplicate_rejected (db : UserDB) (u p p2 : String)
    (hok : (add_user db u p).2 = true) :
    add_user (add_user db u p).1 u p2 = ((add_user db u p).1, false) := by
  by_cases hany : db.users.any (fun usr => usr.username == u) = true
  · exfalso
    rw [add_user] at hok
    simp [hany] at hok
  · have hfresh : db.users.any (fun usr => usr.username == u) = false :=
      Bool.eq_false_iff.mpr hany
    have hadd : add_user db u p =
        ({ users := db.users ++ [⟨db.nextId, u, hash_password p⟩],
           nextId := db.nextId + 1 }, true) := by
      simp [add_user, hfresh]
    rw [hadd]
    simp [add_user]

/-- Witness for C4: registering the same username twice at a concrete store. -/
theorem register_duplicate_rejected_witness :
    (add_user ⟨[], 1⟩ "alice" "pw1").2 = true ∧
    add_user (add_user ⟨[], 1⟩ "alice" "pw1").1 "alice" "pw2" =
      ((add_user ⟨[], 1⟩ "alice" "pw1").1, false) :=
  ⟨by decide, register_duplicate_rejected ⟨[], 1⟩ "alice" "pw1" "pw2" (by decide)⟩

/-- Claim C10: `authenticate_user` returns the same failure value (`false`)
for an absent username as for a registered username with a wrong password,
so the result does not distinguish the two cases. -/
theorem authenticate_failure_indistinguishable (db : UserDB)
    (u1 p1 u2 p2 : String) (usr : User)
    (h1 : db.users.find? (fun x => x.username == u1) = none)
    (h2 : db.users.find? (fun x => x.username == u2) = some usr)
    (h3 : usr.password ≠ hash_password p2) :
    authenticate_user db u1 p1 = authenticate_user db u2 p2 ∧
    authenticate_user db u1 p1 = false := by
  have ha1 : authenticate_user db u1 p1 = false := by
    simp [authenticate_user, h1]
  have ha2 : authenticate_user db u2 p2 = false := by
    simp [authenticate_user, h2, h3]
  exact ⟨ha1.trans ha2.symm, ha1⟩

/-- Witness for C10: a store with one user, probed with an unknown username
and with the known username but a wrong password. -/
theorem authenticate_failure_indistinguishable_witness :
    ([⟨1, "bob", hash_password "right"⟩] : List User).find?
        (fun x => x.username == "alice") = none ∧
    ([⟨1, "bob", hash_password "right"⟩] : List User).find?
        (fun x => x.username == "bob") = some ⟨1, "bob", hash_password "right"⟩ ∧
    (⟨1, "bob", hash_password "right"⟩ : User).password ≠ hash_password "wrong" ∧
    (authenticate_user ⟨[⟨1, "bob", hash_password "right"⟩], 2⟩ "alice" "x" =
       authenticate_user ⟨[⟨1, "bob", hash_password "right"⟩], 2⟩ "bob" "wrong" ∧
     authenticate_user ⟨[⟨1, "bob", hash_password "right"⟩], 2⟩ "alice" "x" = false) :=
  ⟨by decide, by decide, by decide,
   authenticate_failure_indistinguishable ⟨[⟨1, "bob", hash_password "right"⟩], 2⟩
     "alice" "x" "bob" "wrong" ⟨1, "bob", hash_password "right"⟩
     (by decide) (by decide) (by decide)⟩

/-! ### C2, C6: filtering claims -/

/-- Claim C2: `filtered_df` keeps exactly the rows whose state equals the
selected state, whose city equals the selected city, and whose description
is one of the selected vaccine descriptions; the function is total, so an
empty result is an ordinary value, not an error. -/
theorem filtered_df_characterization (df : List VaccRow) (state city : String)
    (selected : List String) (r : VaccRow) :
    r ∈ filtered_df df state city selected ↔
      r ∈ df ∧ r.STATE = some state ∧ r.CITY = some city ∧
        r.DESCRIPTION ∈ selected.map some := by
  simp [filtered_df, List.mem_filter, and_assoc]

/-- Row with matching state and city but a null description, refuting C6 as
stated. -/
def rowNullDesc : VaccRow :=
  ⟨some "CA", some "LA", none, none, none, none, none, none⟩

/-- Counterexample to claim C6 as stated: on a table whose only row has
state CA, city LA and a null description, selecting the full set
`vaccine_options` (which is empty, `dropna` having removed the null) returns
nothing, while the rows matching state and city alone are exactly that row —
so the filter result is not independent of the description value. -/
theorem full_selection_not_state_city_only :
    filtered_df [rowNullDesc] "CA" "LA" (vaccine_options [rowNullDesc]) ≠
      [rowNullDesc].filter (fun r => r.STATE == some "CA" && r.CITY == some "LA") := by
  decide

/-- Claim C6 as amended: with the full vaccine selection, `filtered_df`
returns exactly the rows matching state and city whose description is
non-null; rows with a null description are dropped even under the full
selection. -/
theorem full_selection_filters_state_city_nonnull (df : List VaccRow)
    (state city : String) :
    filtered_df df state city (vaccine_options df) =
      df.filter (fun r =>
        r.STATE == some state && r.CITY == some city && r.DESCRIPTION.isSome) := by
  rw [filtered_df]
  apply List.filter_congr
  intro r hr
  have hdesc : ((vaccine_options df).map some).contains r.DESCRIPTION =
      r.DESCRIPTION.isSome := by
    cases hd : r.DESCRIPTION with
    | none => simp
    | some d =>
      have hdmem : d ∈ vaccine_options df := by
        rw [vaccine_options, mem_uniqueList]
        exact List.mem_filterMap.mpr ⟨r, hr, hd⟩
      simp [hdmem]
  rw [hdesc]

/-! ### C3, C7, C8: data-store claims -/

/-- Claim C3: running `load_data_into_db` twice in sequence with the same
source leaves the record set read by `SELECT *` unchanged after the second
call; in particular a populated store is never written again. -/
theorem bulk_load_idempotent (t : VaccTable) (src : Option (List VaccRow)) :
    all_records (load_data_into_db (load_data_into_db t src).1 src).1 =
      all_records (load_data_into_db t src).1 := by
  by_cases h : is_data_present t = true
  · simp [load_data_into_db, h]
  · have h0 : is_data_present t = false := Bool.eq_false_iff.mpr h
    have hnil : t.rows = [] := by
      rw [is_data_present] at h0
      have hlen : ¬ (0 < t.rows.length) := of_decide_eq_false h0
      exact List.eq_nil_of_length_eq_zero (by omega)
    cases src with
    | none => simp [load_data_into_db, h0]
    | some rows =>
      cases rows with
      | nil => simp [load_data_into_db, is_data_present, all_records, hnil]
      | cons r rs => simp [load_data_into_db, is_data_present, all_records, hnil]

/-- A fully populated sample row of the spreadsheet. -/
def rowSample : VaccRow :=
  ⟨some "CA", some "LA", some "18-25", some "F", some "Hispanic",
   some true, some 2021, some "VaxA"⟩

/-- Claim C7 evaluated at its failing input: starting from the freshly
set-up empty table and a source with one row, `load_data_into_db` replaces
the table, whose schema afterwards is the spreadsheet's column list — it no
longer matches the schema declared at setup and has no `id` column at all,
because `to_sql(..., if_exists="replace")` drops the created table. -/
theorem bulk_load_drops_declared_schema :
    (load_data_into_db (setup_vaccination_database none) (some [rowSample])).1.columns =
        datasetColumns ∧
    (load_data_into_db (setup_vaccination_database none) (some [rowSample])).1.columns ≠
        (setup_vaccination_database none).columns ∧
    "id" ∉ (load_data_into_db (setup_vaccination_database none) (some [rowSample])).1.columns := by
  decide

/-- Claim C8: on an empty store with the source file unavailable,
`load_data_into_db` leaves the store untouched and reports the
file-not-found error message, not the success message. -/
theorem bulk_load_missing_source_reports_error (t : VaccTable)
    (hempty : is_data_present t = false) :
    load_data_into_db t none = (t, some LoadMsg.sourceNotFound) := by
  simp [load_data_into_db, hempty]

/-- Witness for C8 at the freshly set-up empty table. -/
theorem bulk_load_missing_source_reports_error_witness :
    is_data_present (setup_vaccination_database none) = false ∧
    load_data_into_db (setup_vaccination_database none) none =
      (setup_vaccination_database none, some LoadMsg.sourceNotFound) :=
  ⟨by decide, bulk_load_missing_source_reports_error _ (by decide)⟩

/-! ### C9: forecast claim -/

/-- Claim C9: `fit_and_forecast` on a series of exactly one point fails
with `InsufficientData` for every horizon and model order; it never returns
predictions. -/
theorem single_point_series_insufficient (series : List (Int × Int))
    (horizon p d q : Nat) (h : series.length = 1) :
    fit_and_forecast series horizon p d q = .error .insufficientData := by
  have hlt : series.length < max (p + d + q + 1) 2 :=
    lt_of_lt_of_le (by omega : series.length < 2) (le_max_right _ _)
  simp [fit_and_forecast, hlt]

/-- Witness for C9: a one-point series, horizon 2, order (1,1,0). -/
theorem single_point_series_insufficient_witness :
    ([((2022 : Int), (100 : Int))].length = 1) ∧
    fit_and_forecast [((2022 : Int), (100 : Int))] 2 1 1 0 =
      .error .insufficientData :=
  ⟨rfl, single_point_series_insufficient _ 2 1 1 0 rfl⟩

end Ok
